import Mathlib

/-
Verification of the tactical-combat decision engine (a CodinGame-style bot).

The development shallowly embeds the engine's combat model, action
generators, rollout simulation, collision resolution and output
formatting, translated from the C++ sources:
  - the main bot (GameMechanics, SmartGameAI, SmitsimaxSearch, main), and
  - the reference integration variant (calculate_shooting_damage,
    SimulationState, apply_action).

Machine integers are modelled as Int.  Every C++ double that occurs in the
embedded fragment carries an exactly representable value (an integer, or an
integer number of quarters for the cover multiplier), so double arithmetic
is embedded exactly:
  - a C++ cast (int)(x) truncates toward zero and is rendered Int.tdiv;
  - C++ integer division / is likewise truncation, rendered Int.tdiv;
  - expected values are integer-valued at every step (all score constants
    are integers, and the 1.5 multiplier in find_best_shooting_target is
    only applied to even numbers), so they are stored as Int;
  - the cover multiplier 1.0 / 0.5 / 0.25 is stored in quarter units
    (4 / 2 / 1) and applied by (int)(base * mult) = Int.tdiv (base * q) 4;
  - probabilities (calculate_kill_probability, tactical advantage) are
    genuinely fractional and are modelled in ℚ, exact for the comparisons
    performed by the code.
-/

/-- Global game constants from the C++ source. -/
def THROW_DAMAGE : Int := 30

/-- Maximal Manhattan distance of a bomb throw. -/
def THROW_DISTANCE_MAX : Int := 4

/-- Feature flag: wetness slows movement (constant true in the source). -/
def WETNESS_AFFECTS_DISTANCE : Bool := true

/-- Agent classes (enum class GameAgentClass). -/
inductive GameAgentClass
  | GUNNER
  | SNIPER
  | BOMBER
  | ASSAULT
  | BERSERKER
deriving DecidableEq

/-- Static per-agent data (struct SmartGameAI::AgentData); the derived
agent class is recomputed by determine_agent_class where needed. -/
structure AgentData where
  agent_id : Int
  player : Int
  shoot_cooldown : Int
  optimal_range : Int
  soaking_power : Int
  splash_bombs : Int
deriving DecidableEq

/-- Per-turn mutable agent state (struct SmartGameAI::AgentState). -/
structure AgentState where
  agent_id : Int
  x : Int
  y : Int
  cooldown : Int
  splash_bombs : Int
  wetness : Int
deriving DecidableEq

/-- wetness < 100 means the agent is alive. -/
def AgentState.is_alive (a : AgentState) : Bool := a.wetness < 100

/-- health = 100 - wetness. -/
def AgentState.get_health (a : AgentState) : Int := 100 - a.wetness

/-- A scored candidate action (struct SmartGameAI::TacticalDecision).
The diagnostic fields kill_probability and tactical_reasoning are never
read by the embedded code paths and are omitted. -/
structure TacticalDecision where
  action_type : String
  target_x : Int := -1
  target_y : Int := -1
  target_agent_id : Int := -1
  bomb_x : Int := -1
  bomb_y : Int := -1
  expected_value : Int := 0
  expected_damage : Int := 0
deriving DecidableEq

/-- Manhattan distance, written inline as abs(..)+abs(..) in the main bot
and as manhattan_distance in the reference variant. -/
def manhattan_distance (x1 y1 x2 y2 : Int) : Int := |x1 - x2| + |y1 - y2|

/-- GameMechanics::calculate_exact_shooting_damage.  The C++ computes
(int)(base * (1.0 - 0.25*(distance-1))); the factor equals (5-distance)/4
exactly (quarters are exact doubles), so the cast is the truncated
division Int.tdiv (base * (5 - distance)) 4. -/
def calculate_exact_shooting_damage (soaking_power optimal_range distance : Int) : Int :=
  if distance > optimal_range ∨ distance = 0 then 0
  else
    let base_damage := soaking_power
    let base_damage :=
      if distance > 1 then Int.tdiv (base_damage * (5 - distance)) 4 else base_damage
    max 0 base_damage

/-- GameMechanics::calculate_exact_bomb_damage. -/
def calculate_exact_bomb_damage (splash_distance : Int) (is_hunkered : Bool) : Int :=
  if splash_distance > 1 then 0
  else
    let damage := THROW_DAMAGE
    if is_hunkered then Int.tdiv damage 2 else damage

/-- Ceiling of a/b for b > 0, used to render the C++ ceil on exact values. -/
def ceil_div (a b : Int) : Int := -(Int.fdiv (-a) b)

/-- GameMechanics::calculate_movement_cost: ceil(1.0 + wetness*0.01).
For the wetness range handled by the game the double expression rounds to
the exact rational 1 + wetness/100, whose ceiling is ceil_div (100+w) 100. -/
def calculate_movement_cost (wetness : Int) : Int :=
  if WETNESS_AFFECTS_DISTANCE = false then 1
  else ceil_div (100 + wetness) 100

/-- GameMechanics::is_valid_movement_position (tile_map is accepted and
ignored, as in the source). -/
def is_valid_movement_position (x y board_width board_height : Int)
    (tile_map : List (List Int)) (occupied_positions : List (Int × Int)) : Bool :=
  if x < 0 ∨ x ≥ board_width ∨ y < 0 ∨ y ≥ board_height then false
  else if occupied_positions.any (fun p => p.1 = x ∧ p.2 = y) then false
  else (fun _ => true) tile_map

/-- GameMechanics::provides_cover.  Grid reads are rendered with getD;
the checked variant below uses failing reads instead. -/
def provides_cover (x y board_width board_height : Int) (tile_map : List (List Int)) : Bool :=
  if x < 0 ∨ x ≥ board_width ∨ y < 0 ∨ y ≥ board_height then false
  else if 0 ≤ y ∧ (y : Int) < tile_map.length ∧ 0 ≤ x ∧ (x : Int) < (tile_map.headD []).length then
    (tile_map.getD y.toNat []).getD x.toNat 0 = 1
  else false

/-- GameMechanics::calculate_kill_probability (a double in [0,1]). -/
def calculate_kill_probability (current_wetness damage : Int) : ℚ :=
  if current_wetness + damage ≥ 100 then 1
  else ((current_wetness + damage : Int) : ℚ) / 100

/-- GameMechanics::calculate_tactical_advantage: 0.6 * agent ratio plus
0.4 * health ratio, with divisors clamped by max(1, ..). -/
def calculate_tactical_advantage (my_agents_alive enemy_agents_alive
    my_total_health enemy_total_health : Int) : ℚ :=
  let agent_part := (my_agents_alive : ℚ) / ((max 1 enemy_agents_alive : Int) : ℚ)
  let health_part := (my_total_health : ℚ) / ((max 1 enemy_total_health : Int) : ℚ)
  agent_part * (6/10) + health_part * (4/10)

/-- The claim's reading of the attack-damage contract: within range the
damage is floor(power * (1 - 0.25*(distance-1))), else 0. -/
def attack_damage_claim (power optimal_range distance : Int) : Int :=
  if 1 ≤ distance ∧ distance ≤ optimal_range then
    ⌊(power : ℚ) * (1 - (1/4) * ((distance : ℚ) - 1))⌋
  else 0

/-- Evaluation form of attack_damage_claim: the rational floor is the
Euclidean division of power*(5-distance) by 4. -/
theorem attack_damage_claim_eval (p r d : Int) :
    attack_damage_claim p r d = if 1 ≤ d ∧ d ≤ r then (p * (5 - d)) / 4 else 0 := by
  unfold attack_damage_claim
  split
  · rw [show (p : ℚ) * (1 - (1/4) * ((d : ℚ) - 1)) = ((p * (5 - d) : Int) : ℚ) / ((4 : ℕ) : ℚ) by
      push_cast; ring]
    rw [Rat.floor_intCast_div_natCast]
    norm_num
  · rfl

/-- For a positive divisor, clamping at 0 erases the difference between
truncated and floor division. -/
theorem max_zero_tdiv_eq_max_zero_ediv (n : Int) :
    max 0 (Int.tdiv n 4) = max 0 (n / 4) := by
  rcases le_or_lt 0 n with hn | hn
  · rw [Int.tdiv_eq_ediv hn (by norm_num)]
  · have h1 : Int.tdiv n 4 ≤ 0 := by
      have : n = -(-n) := by ring
      rw [this, Int.neg_tdiv]
      have : 0 ≤ Int.tdiv (-n) 4 := Int.tdiv_nonneg (by omega) (by norm_num)
      omega
    have h2 : n / 4 < 0 := Int.ediv_neg' hn (by norm_num)
    omega

/-- Claim C1 (amended): for 1 ≤ d ≤ optimal_range the shooting damage is
max(0, floor(power*(1-0.25*(d-1)))) — the clamp applies inside the range
as well — it is 0 at d = 0 or beyond the range, and never negative. -/
theorem c1_attack_damage (p r d : Int) :
    (1 ≤ d → d ≤ r → calculate_exact_shooting_damage p r d = max 0 (attack_damage_claim p r d))
    ∧ (d = 0 ∨ d > r → calculate_exact_shooting_damage p r d = 0)
    ∧ 0 ≤ calculate_exact_shooting_damage p r d := by
  refine ⟨?_, ?_, ?_⟩
  · intro h1 h2
    rw [attack_damage_claim_eval]
    rw [if_pos ⟨h1, h2⟩]
    unfold calculate_exact_shooting_damage
    rw [if_neg (by omega)]
    rcases lt_or_le 1 d with hd | hd
    · simp only [if_pos hd]
      rw [max_zero_tdiv_eq_max_zero_ediv]
    · have hd1 : d = 1 := by omega
      subst hd1
      simp only [show ¬ ((1 : Int) > 1) by omega, if_false]
      have : p * (5 - 1) / 4 = p := by
        rw [show p * (5 - (1:Int)) = p * 4 by ring]
        exact Int.mul_ediv_cancel p (by norm_num)
      omega
  · intro h
    unfold calculate_exact_shooting_damage
    rw [if_pos (by omega)]
  · unfold calculate_exact_shooting_damage
    split
    · omega
    · exact le_max_left 0 _

/-- Claim C1 counterexample: at power 24, optimal_range 6, distance 6 the
code returns 0 while the claimed floor formula yields -6; the claim's
equality inside the range fails there. -/
theorem c1_counterexample :
    calculate_exact_shooting_damage 24 6 6 = 0
    ∧ attack_damage_claim 24 6 6 = -6
    ∧ (0 : Int) ≠ -6 := by
  refine ⟨by decide, ?_, by decide⟩
  rw [attack_damage_claim_eval]
  decide

/-- Claim C1 witness: the amended statement evaluated at power 10,
optimal_range 3, distance 2, where the code yields 7. -/
theorem c1_witness :
    calculate_exact_shooting_damage 10 3 2 = max 0 (attack_damage_claim 10 3 2)
    ∧ calculate_exact_shooting_damage 10 3 2 = 7 := by
  refine ⟨(c1_attack_damage 10 3 2).1 (by decide) (by decide), by decide⟩

/-- A division that fails on a zero divisor, used to instrument the combat
model's guarded divisions. -/
def safe_div_q (a : ℚ) (b : Int) : Option ℚ :=
  if b = 0 then none else some (a / (b : ℚ))

/-- calculate_tactical_advantage with every division instrumented. -/
def calculate_tactical_advantage_checked (my_agents_alive enemy_agents_alive
    my_total_health enemy_total_health : Int) : Option ℚ := do
  let agent_part ← safe_div_q (my_agents_alive : ℚ) (max 1 enemy_agents_alive)
  let health_part ← safe_div_q (my_total_health : ℚ) (max 1 enemy_total_health)
  some (agent_part * (6/10) + health_part * (4/10))

/-- provides_cover with every grid read instrumented: a read outside the
list bounds fails instead of defaulting. -/
def provides_cover_checked (x y board_width board_height : Int)
    (tile_map : List (List Int)) : Option Bool :=
  if x < 0 ∨ x ≥ board_width ∨ y < 0 ∨ y ≥ board_height then some false
  else if 0 ≤ y ∧ (y : Int) < tile_map.length ∧ 0 ≤ x ∧ (x : Int) < (tile_map.headD []).length then
    match tile_map[y.toNat]? with
    | none => none
    | some row =>
      match row[x.toNat]? with
      | none => none
      | some v => some (decide (v = 1))
  else some false

/-- Claim C10: the combat-model functions are total; every division is
guarded (the divisors max(1,..) are nonzero) and every grid read passes
its bounds check, for any inputs with a rectangular terrain grid (the
per-match grid is built rectangular), including zero alive enemies and
zero total enemy health. -/
theorem c10_combat_model_total (x y W H : Int) (tile_map : List (List Int))
    (ma ea mh eh : Int)
    (hrect : ∀ row ∈ tile_map, row.length = (tile_map.headD []).length) :
    provides_cover_checked x y W H tile_map = some (provides_cover x y W H tile_map)
    ∧ (provides_cover_checked x y W H tile_map).isSome = true
    ∧ calculate_tactical_advantage_checked ma ea mh eh
        = some (calculate_tactical_advantage ma ea mh eh)
    ∧ (calculate_tactical_advantage_checked ma ea mh eh).isSome = true := by
  have hdiv : ∀ (a : ℚ) (b : Int), 1 ≤ b → safe_div_q a b = some (a / (b : ℚ)) := by
    intro a b hb
    unfold safe_div_q
    rw [if_neg (by omega)]
  have hcov : provides_cover_checked x y W H tile_map = some (provides_cover x y W H tile_map) := by
    unfold provides_cover_checked provides_cover
    split
    · rfl
    · split
      · rename_i hbounds hin
        obtain ⟨hy0, hyl, hx0, hxl⟩ := hin
        have hylen : y.toNat < tile_map.length := by omega
        have hrowD : tile_map.getD y.toNat [] = tile_map[y.toNat] := by
          rw [List.getD_eq_getElem?_getD, List.getElem?_eq_getElem hylen]
          rfl
        have hmem : tile_map[y.toNat] ∈ tile_map := List.getElem_mem hylen
        have hxlen : x.toNat < tile_map[y.toNat].length := by
          have := hrect _ hmem
          omega
        have hvalD : (tile_map[y.toNat]).getD x.toNat 0 = tile_map[y.toNat][x.toNat] := by
          rw [List.getD_eq_getElem?_getD, List.getElem?_eq_getElem hxlen]
          rfl
        rw [List.getElem?_eq_getElem hylen]
        dsimp only
        rw [List.getElem?_eq_getElem hxlen]
        dsimp only
        rw [hrowD, hvalD]
      · rfl
  have hadv : calculate_tactical_advantage_checked ma ea mh eh
      = some (calculate_tactical_advantage ma ea mh eh) := by
    unfold calculate_tactical_advantage_checked calculate_tactical_advantage
    rw [hdiv _ _ (le_max_left 1 ea), hdiv _ _ (le_max_left 1 eh)]
    rfl
  exact ⟨hcov, by rw [hcov]; rfl, hadv, by rw [hadv]; rfl⟩

/-- Claim C10 witness: totality at a concrete in-bounds read on a concrete
rectangular 2x2 grid with zero alive enemies and zero enemy health. -/
theorem c10_witness :
    (∀ row ∈ [[0, 0], [0, 1]], row.length = (([[0, 0], [0, 1]] : List (List Int)).headD []).length)
    ∧ provides_cover_checked 1 1 2 2 [[0, 0], [0, 1]] = some (provides_cover 1 1 2 2 [[0, 0], [0, 1]])
    ∧ (provides_cover_checked 1 1 2 2 [[0, 0], [0, 1]]).isSome = true
    ∧ calculate_tactical_advantage_checked 2 0 150 0
        = some (calculate_tactical_advantage 2 0 150 0)
    ∧ (calculate_tactical_advantage_checked 2 0 150 0).isSome = true := by
  have h := c10_combat_model_total 1 1 2 2 [[0, 0], [0, 1]] 2 0 150 0 (by decide)
  exact ⟨by decide, h.1, h.2.1, h.2.2.1, h.2.2.2⟩

/-- Reference variant calculate_shooting_damage: same falloff, but with no
zero-distance guard (distance 0 deals full power). -/
def calculate_shooting_damage (shooter : AgentData) (target : AgentState) (distance : Int) : Int :=
  if distance > shooter.optimal_range then 0
  else
    let base_damage := shooter.soaking_power
    let base_damage :=
      if distance > 1 then Int.tdiv (base_damage * (5 - distance)) 4 else base_damage
    max 0 base_damage

/-- target.wetness += damage. -/
def add_wetness (t : AgentState) (damage : Int) : AgentState :=
  { t with wetness := t.wetness + damage }

/-- The reference apply_action SHOOT loop: damage the first target with
the matching id (the flag records whether one was found, since the
cooldown is only reset inside the loop body). -/
def shoot_first_match (shooter : AgentState) (data : AgentData) (tid : Int) :
    List AgentState → List AgentState × Bool
  | [] => ([], false)
  | t :: ts =>
    if t.agent_id = tid then
      (add_wetness t (calculate_shooting_damage data t
          (manhattan_distance shooter.x shooter.y t.x t.y)) :: ts, true)
    else
      (t :: (shoot_first_match shooter data tid ts).1, (shoot_first_match shooter data tid ts).2)

/-- Reference variant apply_action, acting on one agent of the acting side
and the full opposing target list; node carries the selected action. -/
def apply_action_ref (data : AgentData) (agent : AgentState) (node : TacticalDecision)
    (targets : List AgentState) (width height : Int) : AgentState × List AgentState :=
  if node.action_type = "SHOOT" ∧ agent.cooldown = 0 then
    (if (shoot_first_match agent data node.target_agent_id targets).2 then
       { agent with cooldown := data.shoot_cooldown } else agent,
     (shoot_first_match agent data node.target_agent_id targets).1)
  else if node.action_type = "MOVE" then
    (if 0 ≤ node.target_x ∧ node.target_x < width ∧ 0 ≤ node.target_y ∧ node.target_y < height
      then { agent with x := node.target_x, y := node.target_y } else agent, targets)
  else if node.action_type = "THROW" ∧ agent.cooldown = 0 ∧ agent.splash_bombs > 0 then
    ({ agent with splash_bombs := agent.splash_bombs - 1, cooldown := data.shoot_cooldown },
     targets.map (fun t =>
       if manhattan_distance t.x t.y node.target_x node.target_y ≤ 1 then
         add_wetness t (Int.tdiv data.soaking_power 2)
       else t))
  else (agent, targets)

/-- Reference variant SimulationState::reset_to_base_state cooldown pass
(applied to each side's list). -/
def reset_to_base_state (base : List AgentState) : List AgentState :=
  base.map (fun ag => if ag.cooldown > 0 then { ag with cooldown := ag.cooldown - 1 } else ag)

/-- Pointwise wetness monotonicity relation. -/
def wetness_le (t u : AgentState) : Prop := t.wetness ≤ u.wetness

/-- Reflexivity helper for wetness_le along a list. -/
theorem forall2_wetness_refl (ts : List AgentState) : List.Forall₂ wetness_le ts ts := by
  induction ts with
  | nil => exact List.Forall₂.nil
  | cons t ts ih => exact List.Forall₂.cons (le_refl _) ih

/-- Mapping a pointwise wetness-increasing transform along a list. -/
theorem forall2_wetness_map (f : AgentState → AgentState)
    (hf : ∀ t, wetness_le t (f t)) :
    ∀ ts : List AgentState, List.Forall₂ wetness_le ts (ts.map f) := by
  intro ts
  induction ts with
  | nil => exact List.Forall₂.nil
  | cons t ts ih =>
    rw [List.map_cons]
    exact List.Forall₂.cons (hf t) ih

/-- The shoot loop never decreases any target's wetness. -/
theorem shoot_first_match_mono (shooter : AgentState) (data : AgentData) (tid : Int)
    (ts : List AgentState) :
    List.Forall₂ wetness_le ts (shoot_first_match shooter data tid ts).1 := by
  induction ts with
  | nil => exact List.Forall₂.nil
  | cons t ts ih =>
    simp only [shoot_first_match]
    split
    · have hd : 0 ≤ calculate_shooting_damage data t
          (manhattan_distance shooter.x shooter.y t.x t.y) := by
        unfold calculate_shooting_damage
        split
        · omega
        · exact le_max_left 0 _
      have hw : wetness_le t (add_wetness t (calculate_shooting_damage data t
          (manhattan_distance shooter.x shooter.y t.x t.y))) := by
        unfold wetness_le add_wetness
        dsimp only
        omega
      exact List.Forall₂.cons hw (forall2_wetness_refl ts)
    · exact List.Forall₂.cons (show wetness_le t t from le_refl _) ih

/-- Claim C7 (amended): kill probability never exceeds 1 for any wetness
and damage; applying a simulated action never decreases any target's
wetness (damage is nonnegative whenever the profile power is) and leaves
the actor's own wetness unchanged.  Wetness is, however, not clamped
above 100 (see the counterexample). -/
theorem c7_wetness_bounds (w d : Int) (data : AgentData) (agent : AgentState)
    (node : TacticalDecision) (targets : List AgentState) (width height : Int)
    (hp : 0 ≤ data.soaking_power) :
    calculate_kill_probability w d ≤ 1
    ∧ List.Forall₂ wetness_le targets (apply_action_ref data agent node targets width height).2
    ∧ (apply_action_ref data agent node targets width height).1.wetness = agent.wetness := by
  refine ⟨?_, ?_, ?_⟩
  · unfold calculate_kill_probability
    split
    · exact le_refl 1
    · rename_i hlt
      rw [div_le_one (by norm_num)]
      have : ((w + d : Int) : ℚ) ≤ ((100 : Int) : ℚ) := by
        exact_mod_cast (by omega : (w + d : Int) ≤ 100)
      simpa using this
  · unfold apply_action_ref
    split
    · exact shoot_first_match_mono agent data node.target_agent_id targets
    · split
      · exact forall2_wetness_refl targets
      · split
        · exact forall2_wetness_map _ (fun t => by
            show wetness_le t (if manhattan_distance t.x t.y node.target_x node.target_y ≤ 1
              then add_wetness t (Int.tdiv data.soaking_power 2) else t)
            unfold wetness_le
            split
            · unfold add_wetness
              dsimp only
              have : 0 ≤ Int.tdiv data.soaking_power 2 := Int.tdiv_nonneg hp (by norm_num)
              omega
            · exact le_refl _) targets
        · exact forall2_wetness_refl targets
  · unfold apply_action_ref
    split
    · split <;> rfl
    · split
      · split <;> rfl
      · split <;> rfl

/-- Claim C7 counterexample: a 24-damage simulated shot on a target at
wetness 90 leaves the stored wetness at 114 — the state is not clamped to
[0,100] (the claim's clamping of the stored value fails). -/
theorem c7_counterexample :
    ((apply_action_ref ⟨1, 0, 5, 6, 24, 0⟩ ⟨1, 0, 0, 0, 0, 0⟩
        { action_type := "SHOOT", target_agent_id := 2 }
        [⟨2, 1, 0, 0, 0, 90⟩] 5 5).2.map (fun t => t.wetness)) = [114]
    ∧ ¬ ((114 : Int) ≤ 100) := by
  refine ⟨by decide, by decide⟩

/-- Claim C7 witness: the amended bounds at a concrete shot (power 24,
target wetness 90): the kill probability is capped at 1 and the target's
wetness does not decrease. -/
theorem c7_witness :
    (0 : Int) ≤ 24
    ∧ (calculate_kill_probability 90 24 ≤ 1
      ∧ List.Forall₂ wetness_le [⟨2, 1, 0, 0, 0, 90⟩]
          ((apply_action_ref ⟨1, 0, 5, 6, 24, 0⟩ ⟨1, 0, 0, 0, 0, 0⟩
            { action_type := "SHOOT", target_agent_id := 2 } [⟨2, 1, 0, 0, 0, 90⟩] 5 5).2)
      ∧ ((apply_action_ref ⟨1, 0, 5, 6, 24, 0⟩ ⟨1, 0, 0, 0, 0, 0⟩
            { action_type := "SHOOT", target_agent_id := 2 }
            [⟨2, 1, 0, 0, 0, 90⟩] 5 5).1.wetness = (⟨1, 0, 0, 0, 0, 0⟩ : AgentState).wetness)) :=
  ⟨by decide,
   c7_wetness_bounds 90 24 ⟨1, 0, 5, 6, 24, 0⟩ ⟨1, 0, 0, 0, 0, 0⟩
     { action_type := "SHOOT", target_agent_id := 2 } [⟨2, 1, 0, 0, 0, 90⟩] 5 5 (by decide)⟩

/-- cooldown-- floored at 0, the per-step decrement of the rollout loop. -/
def dec_cooldown (c : Int) : Int := if c > 0 then c - 1 else c

/-- One agent's update inside SmitsimaxSearch::apply_joint_action: a dead
agent is skipped; a Move sets the position; a Shoot at cooldown 0 sets
cooldown 1; a Throw with a bomb left consumes it and sets cooldown 2; no
damage is dealt to anyone; finally the agent's own cooldown is
decremented (floored at 0). -/
def apply_one_action (agent : AgentState) (action : TacticalDecision) : AgentState :=
  if agent.is_alive = false then agent
  else
    let agent :=
      if action.action_type = "MOVE" then
        { agent with x := action.target_x, y := action.target_y }
      else if action.action_type = "SHOOT" ∧ agent.cooldown = 0 then
        { agent with cooldown := 1 }
      else if action.action_type = "THROW" ∧ agent.splash_bombs > 0 then
        { agent with splash_bombs := agent.splash_bombs - 1, cooldown := 2 }
      else agent
    { agent with cooldown := dec_cooldown agent.cooldown }

/-- SmitsimaxSearch::apply_joint_action: the loop runs while both lists
last; agents beyond the action list are returned unchanged.  The enemies
argument of the C++ function is never read. -/
def apply_joint_action : List AgentState → List TacticalDecision → List AgentState
  | [], _ => []
  | rest, [] => rest
  | a :: rest, act :: acts => apply_one_action a act :: apply_joint_action rest acts

/-- The greedy one-step chase of
SmitsimaxSearch::simulate_enemy_response_enhanced: pick the closest living
controlled agent (strictly-closer wins, first in scan order on ties). -/
def closest_alive_target (my_agents : List AgentState) (e : AgentState) : Option AgentState :=
  (my_agents.foldl (fun best m =>
    if m.is_alive = false then best
    else
      let d := manhattan_distance e.x e.y m.x m.y
      match best with
      | none => some (m, d)
      | some bd => if d < bd.2 then some (m, d) else best) none).map (fun bd => bd.1)

/-- One enemy's greedy step toward its closest target (no bounds clamp in
the enhanced variant). -/
def enemy_greedy_step (my_agents : List AgentState) (e : AgentState) : AgentState :=
  if e.is_alive = false then e
  else
    match closest_alive_target my_agents e with
    | none => e
    | some t =>
      if e.x < t.x then { e with x := e.x + 1 }
      else if e.x > t.x then { e with x := e.x - 1 }
      else if e.y < t.y then { e with y := e.y + 1 }
      else if e.y > t.y then { e with y := e.y - 1 }
      else e

/-- SmitsimaxSearch::simulate_enemy_response_enhanced. -/
def simulate_enemy_response_enhanced (enemies my_agents : List AgentState) : List AgentState :=
  enemies.map (enemy_greedy_step my_agents)

/-- The enemy greedy step only moves: wetness, cooldown and bombs are
untouched. -/
theorem enemy_greedy_step_fields (my_agents : List AgentState) (e : AgentState) :
    (enemy_greedy_step my_agents e).wetness = e.wetness
    ∧ (enemy_greedy_step my_agents e).cooldown = e.cooldown
    ∧ (enemy_greedy_step my_agents e).splash_bombs = e.splash_bombs := by
  unfold enemy_greedy_step
  split
  · exact ⟨rfl, rfl, rfl⟩
  · split
    · exact ⟨rfl, rfl, rfl⟩
    · split
      · exact ⟨rfl, rfl, rfl⟩
      · split
        · exact ⟨rfl, rfl, rfl⟩
        · split
          · exact ⟨rfl, rfl, rfl⟩
          · split
            · exact ⟨rfl, rfl, rfl⟩
            · exact ⟨rfl, rfl, rfl⟩

/-- apply_one_action deals no damage: wetness is unchanged. -/
theorem apply_one_action_wetness (agent : AgentState) (action : TacticalDecision) :
    (apply_one_action agent action).wetness = agent.wetness := by
  unfold apply_one_action
  split
  · rfl
  · split
    · rfl
    · split
      · rfl
      · split
        · rfl
        · rfl

/-- Claim C2 (amended): in the search engine's joint simulation only the
acting side's list is transformed and no damage is applied at all — every
agent's wetness is unchanged by both apply_joint_action and the enemy
response, and enemy cooldowns are untouched; for a living agent a Move
sets the position, an Attack leaves the state exactly as Hunker does (its
cooldown write of 1 is immediately cancelled by the same-step decrement),
and a Throw with a bomb left consumes the bomb and leaves cooldown 1;
each processed agent's own cooldown is decremented, floored at 0. -/
theorem c2_joint_simulation (agents enemies : List AgentState)
    (actions : List TacticalDecision) (a : AgentState) (act : TacticalDecision)
    (ha : a.is_alive = true) :
    (apply_joint_action agents actions).map (fun s => s.wetness)
      = agents.map (fun s => s.wetness)
    ∧ (simulate_enemy_response_enhanced enemies agents).map (fun s => s.wetness)
      = enemies.map (fun s => s.wetness)
    ∧ (simulate_enemy_response_enhanced enemies agents).map (fun s => s.cooldown)
      = enemies.map (fun s => s.cooldown)
    ∧ (act.action_type = "MOVE" → apply_one_action a act
        = { a with x := act.target_x, y := act.target_y, cooldown := dec_cooldown a.cooldown })
    ∧ (act.action_type = "SHOOT" → apply_one_action a act
        = { a with cooldown := dec_cooldown a.cooldown })
    ∧ (act.action_type = "THROW" → a.splash_bombs > 0 → apply_one_action a act
        = { a with splash_bombs := a.splash_bombs - 1, cooldown := 1 })
    ∧ (act.action_type = "HUNKER_DOWN" → apply_one_action a act
        = { a with cooldown := dec_cooldown a.cooldown }) := by
  refine ⟨?_, ?_, ?_, ?_, ?_, ?_, ?_⟩
  · induction agents generalizing actions with
    | nil => cases actions <;> rfl
    | cons b bs ih =>
      cases actions with
      | nil => rfl
      | cons act1 acts =>
        simp only [apply_joint_action, List.map_cons, List.cons.injEq]
        exact ⟨apply_one_action_wetness b act1, ih acts⟩
  · unfold simulate_enemy_response_enhanced
    induction enemies with
    | nil => rfl
    | cons e es ih =>
      simp only [List.map_cons, List.cons.injEq]
      exact ⟨(enemy_greedy_step_fields agents e).1, ih⟩
  · unfold simulate_enemy_response_enhanced
    induction enemies with
    | nil => rfl
    | cons e es ih =>
      simp only [List.map_cons, List.cons.injEq]
      exact ⟨(enemy_greedy_step_fields agents e).2.1, ih⟩
  · intro h
    simp [apply_one_action, ha, h]
  · intro h
    by_cases hc : a.cooldown = 0
    · simp [apply_one_action, ha, h, hc, dec_cooldown]
    · simp [apply_one_action, ha, h, hc, dec_cooldown]
  · intro h hb
    simp [apply_one_action, ha, h, hb, dec_cooldown]
  · intro h
    simp [apply_one_action, ha, h]

/-- Claim C2 counterexample: an agent off cooldown shoots a target at
distance 1 whose computed damage is 24, yet after the joint-simulation
step the target's wetness is unchanged at 50 (no damage is applied) and
the shooter's cooldown is back at 0. -/
theorem c2_counterexample :
    (simulate_enemy_response_enhanced [⟨2, 1, 0, 0, 0, 50⟩]
        (apply_joint_action [⟨1, 0, 0, 0, 1, 0⟩]
          [{ action_type := "SHOOT", target_agent_id := 2, expected_damage := 24 }])).map
        (fun s => s.wetness) = [50]
    ∧ calculate_exact_shooting_damage 24 6 1 = 24
    ∧ (apply_joint_action [⟨1, 0, 0, 0, 1, 0⟩]
          [{ action_type := "SHOOT", target_agent_id := 2, expected_damage := 24 }]).map
        (fun s => s.cooldown) = [0] := by
  refine ⟨by decide, by decide, by decide⟩

/-- Claim C2 witness: the amended step effects at one concrete living
agent performing a Throw with one bomb left. -/
theorem c2_witness :
    (⟨1, 0, 0, 0, 1, 0⟩ : AgentState).is_alive = true
    ∧ ((apply_joint_action [⟨1, 0, 0, 0, 1, 0⟩] [{ action_type := "THROW", target_x := 2, target_y := 0 }]).map (fun s => s.wetness)
        = ([⟨1, 0, 0, 0, 1, 0⟩] : List AgentState).map (fun s => s.wetness)
      ∧ (simulate_enemy_response_enhanced [⟨2, 3, 0, 4, 0, 50⟩] [⟨1, 0, 0, 0, 1, 0⟩]).map (fun s => s.wetness)
        = ([⟨2, 3, 0, 4, 0, 50⟩] : List AgentState).map (fun s => s.wetness)
      ∧ (simulate_enemy_response_enhanced [⟨2, 3, 0, 4, 0, 50⟩] [⟨1, 0, 0, 0, 1, 0⟩]).map (fun s => s.cooldown)
        = ([⟨2, 3, 0, 4, 0, 50⟩] : List AgentState).map (fun s => s.cooldown)
      ∧ (({ action_type := "THROW", target_x := 2, target_y := 0 } : TacticalDecision).action_type = "MOVE" →
          apply_one_action ⟨1, 0, 0, 0, 1, 0⟩ { action_type := "THROW", target_x := 2, target_y := 0 }
          = { (⟨1, 0, 0, 0, 1, 0⟩ : AgentState) with x := ({ action_type := "THROW", target_x := 2, target_y := 0 } : TacticalDecision).target_x, y := ({ action_type := "THROW", target_x := 2, target_y := 0 } : TacticalDecision).target_y, cooldown := dec_cooldown (⟨1, 0, 0, 0, 1, 0⟩ : AgentState).cooldown })
      ∧ (({ action_type := "THROW", target_x := 2, target_y := 0 } : TacticalDecision).action_type = "SHOOT" →
          apply_one_action ⟨1, 0, 0, 0, 1, 0⟩ { action_type := "THROW", target_x := 2, target_y := 0 }
          = { (⟨1, 0, 0, 0, 1, 0⟩ : AgentState) with cooldown := dec_cooldown (⟨1, 0, 0, 0, 1, 0⟩ : AgentState).cooldown })
      ∧ (({ action_type := "THROW", target_x := 2, target_y := 0 } : TacticalDecision).action_type = "THROW" →
          (⟨1, 0, 0, 0, 1, 0⟩ : AgentState).splash_bombs > 0 →
          apply_one_action ⟨1, 0, 0, 0, 1, 0⟩ { action_type := "THROW", target_x := 2, target_y := 0 }
          = { (⟨1, 0, 0, 0, 1, 0⟩ : AgentState) with splash_bombs := (⟨1, 0, 0, 0, 1, 0⟩ : AgentState).splash_bombs - 1, cooldown := 1 })
      ∧ (({ action_type := "THROW", target_x := 2, target_y := 0 } : TacticalDecision).action_type = "HUNKER_DOWN" →
          apply_one_action ⟨1, 0, 0, 0, 1, 0⟩ { action_type := "THROW", target_x := 2, target_y := 0 }
          = { (⟨1, 0, 0, 0, 1, 0⟩ : AgentState) with cooldown := dec_cooldown (⟨1, 0, 0, 0, 1, 0⟩ : AgentState).cooldown })) :=
  ⟨by decide,
   c2_joint_simulation [⟨1, 0, 0, 0, 1, 0⟩] [⟨2, 3, 0, 4, 0, 50⟩]
     [{ action_type := "THROW", target_x := 2, target_y := 0 }]
     ⟨1, 0, 0, 0, 1, 0⟩ { action_type := "THROW", target_x := 2, target_y := 0 } (by decide)⟩

/-- Claim C6 (amended): in the main bot's rollouts a non-acting living
agent's cooldown falls by exactly 1 per step, floored at 0, and never
goes negative; but acting sets fixed constants — a Shoot at cooldown 0
nets cooldown 0 and a Throw with a bomb nets cooldown 1 — independent of
the agent's profile cooldown period.  Only the reference variant's
apply_action resets the actor's cooldown to the profile's shoot_cooldown,
and its reset_to_base_state performs the decrement-by-1 floored at 0. -/
theorem c6_cooldown_discipline (a : AgentState) (act : TacticalDecision)
    (data : AgentData) (agent : AgentState) (node : TacticalDecision)
    (targets : List AgentState) (width height : Int) (base : List AgentState)
    (ha : a.is_alive = true) :
    (act.action_type ≠ "SHOOT" → act.action_type ≠ "THROW" →
      (apply_one_action a act).cooldown = dec_cooldown a.cooldown)
    ∧ (act.action_type = "SHOOT" → a.cooldown = 0 → (apply_one_action a act).cooldown = 0)
    ∧ (act.action_type = "THROW" → a.splash_bombs > 0 → (apply_one_action a act).cooldown = 1)
    ∧ (0 ≤ a.cooldown → 0 ≤ (apply_one_action a act).cooldown)
    ∧ (node.action_type = "SHOOT" → agent.cooldown = 0 →
        (shoot_first_match agent data node.target_agent_id targets).2 = true →
        (apply_action_ref data agent node targets width height).1.cooldown = data.shoot_cooldown)
    ∧ (node.action_type = "THROW" → agent.cooldown = 0 → agent.splash_bombs > 0 →
        (apply_action_ref data agent node targets width height).1.cooldown = data.shoot_cooldown)
    ∧ (reset_to_base_state base).map (fun s => s.cooldown)
        = base.map (fun s => dec_cooldown s.cooldown) := by
  refine ⟨?_, ?_, ?_, ?_, ?_, ?_, ?_⟩
  · intro hs ht
    by_cases hm : act.action_type = "MOVE"
    · simp [apply_one_action, ha, hm]
    · simp [apply_one_action, ha, hm, hs, ht]
  · intro h hc
    simp [apply_one_action, ha, h, hc, dec_cooldown]
  · intro h hb
    simp [apply_one_action, ha, h, hb, dec_cooldown]
  · intro h0
    unfold apply_one_action dec_cooldown
    split
    · omega
    · split
      · dsimp only
        split <;> omega
      · split
        · dsimp only
          split <;> omega
        · split
          · dsimp only
            split <;> omega
          · dsimp only
            split <;> omega
  · intro h hc hfound
    simp [apply_action_ref, h, hc, hfound]
  · intro h hc hb
    simp [apply_action_ref, h, hc, hb]
  · unfold reset_to_base_state
    induction base with
    | nil => rfl
    | cons b bs ih =>
      simp only [List.map_cons, List.cons.injEq]
      refine ⟨?_, ih⟩
      unfold dec_cooldown
      split
      · rfl
      · rfl

/-- Claim C6 counterexample: an agent whose profile cooldown period is 5
throws a bomb in a rollout and ends the step at cooldown 1 (the rollout
uses the fixed constant 2 followed by the step decrement), not 5. -/
theorem c6_counterexample :
    (apply_one_action ⟨1, 0, 0, 0, 1, 0⟩ { action_type := "THROW" }).cooldown = 1
    ∧ (⟨1, 0, 5, 6, 24, 0⟩ : AgentData).shoot_cooldown = 5
    ∧ (1 : Int) ≠ 5 := by
  refine ⟨by decide, by decide, by decide⟩

/-- Claim C6 witness: the amended cooldown discipline evaluated at one
concrete living agent, a Hunker action, and one concrete reference-variant
shot. -/
theorem c6_witness :
    (⟨1, 0, 0, 3, 1, 0⟩ : AgentState).is_alive = true
    ∧ ((({ action_type := "HUNKER_DOWN" } : TacticalDecision).action_type ≠ "SHOOT" →
        ({ action_type := "HUNKER_DOWN" } : TacticalDecision).action_type ≠ "THROW" →
        (apply_one_action ⟨1, 0, 0, 3, 1, 0⟩ { action_type := "HUNKER_DOWN" }).cooldown
          = dec_cooldown (⟨1, 0, 0, 3, 1, 0⟩ : AgentState).cooldown)
      ∧ (({ action_type := "HUNKER_DOWN" } : TacticalDecision).action_type = "SHOOT" →
          (⟨1, 0, 0, 3, 1, 0⟩ : AgentState).cooldown = 0 →
          (apply_one_action ⟨1, 0, 0, 3, 1, 0⟩ { action_type := "HUNKER_DOWN" }).cooldown = 0)
      ∧ (({ action_type := "HUNKER_DOWN" } : TacticalDecision).action_type = "THROW" →
          (⟨1, 0, 0, 3, 1, 0⟩ : AgentState).splash_bombs > 0 →
          (apply_one_action ⟨1, 0, 0, 3, 1, 0⟩ { action_type := "HUNKER_DOWN" }).cooldown = 1)
      ∧ (0 ≤ (⟨1, 0, 0, 3, 1, 0⟩ : AgentState).cooldown →
          0 ≤ (apply_one_action ⟨1, 0, 0, 3, 1, 0⟩ { action_type := "HUNKER_DOWN" }).cooldown)
      ∧ (({ action_type := "SHOOT", target_agent_id := 2 } : TacticalDecision).action_type = "SHOOT" →
          (⟨1, 0, 0, 0, 0, 0⟩ : AgentState).cooldown = 0 →
          (shoot_first_match ⟨1, 0, 0, 0, 0, 0⟩ ⟨1, 0, 5, 6, 24, 0⟩
            ({ action_type := "SHOOT", target_agent_id := 2 } : TacticalDecision).target_agent_id
            [⟨2, 1, 0, 0, 0, 90⟩]).2 = true →
          (apply_action_ref ⟨1, 0, 5, 6, 24, 0⟩ ⟨1, 0, 0, 0, 0, 0⟩
            { action_type := "SHOOT", target_agent_id := 2 } [⟨2, 1, 0, 0, 0, 90⟩] 5 5).1.cooldown
            = (⟨1, 0, 5, 6, 24, 0⟩ : AgentData).shoot_cooldown)
      ∧ (({ action_type := "SHOOT", target_agent_id := 2 } : TacticalDecision).action_type = "THROW" →
          (⟨1, 0, 0, 0, 0, 0⟩ : AgentState).cooldown = 0 →
          (⟨1, 0, 0, 0, 0, 0⟩ : AgentState).splash_bombs > 0 →
          (apply_action_ref ⟨1, 0, 5, 6, 24, 0⟩ ⟨1, 0, 0, 0, 0, 0⟩
            { action_type := "SHOOT", target_agent_id := 2 } [⟨2, 1, 0, 0, 0, 90⟩] 5 5).1.cooldown
            = (⟨1, 0, 5, 6, 24, 0⟩ : AgentData).shoot_cooldown)
      ∧ (reset_to_base_state [⟨2, 1, 0, 0, 0, 90⟩]).map (fun s => s.cooldown)
          = ([⟨2, 1, 0, 0, 0, 90⟩] : List AgentState).map (fun s => dec_cooldown s.cooldown)) :=
  ⟨by decide,
   c6_cooldown_discipline ⟨1, 0, 0, 3, 1, 0⟩ { action_type := "HUNKER_DOWN" }
     ⟨1, 0, 5, 6, 24, 0⟩ ⟨1, 0, 0, 0, 0, 0⟩ { action_type := "SHOOT", target_agent_id := 2 }
     [⟨2, 1, 0, 0, 0, 90⟩] 5 5 [⟨2, 1, 0, 0, 0, 90⟩] (by decide)⟩

/-- The zero-valued Hunker fallback decision. -/
def hunker_decision : TacticalDecision := { action_type := "HUNKER_DOWN" }

/-- The friendly-fire test of find_best_bombing_target_with_allies: some
living controlled agent other than the thrower lies in the splash radius
(Manhattan distance at most 1) of the landing tile. -/
def splash_hits_friendly (thrower_id : Int) (allies : List AgentState)
    (bomb_x bomb_y : Int) : Bool :=
  allies.any (fun ally =>
    ally.agent_id ≠ thrower_id ∧ ally.is_alive = true
      ∧ manhattan_distance bomb_x bomb_y ally.x ally.y ≤ 1)

/-- SmartGameAI::calculate_total_splash_damage_clean. -/
def calculate_total_splash_damage_clean (enemies : List AgentState) (bomb_x bomb_y : Int) : Int :=
  max 0 (enemies.foldl (fun total e =>
    if e.is_alive = true ∧ manhattan_distance bomb_x bomb_y e.x e.y ≤ 1 then total + 30
    else total) 0)

/-- SmartGameAI::count_enemies_in_splash_clean. -/
def count_enemies_in_splash_clean (enemies : List AgentState) (bomb_x bomb_y : Int) : Int :=
  enemies.foldl (fun c e =>
    if e.is_alive = true ∧ manhattan_distance bomb_x bomb_y e.x e.y ≤ 1 then c + 1 else c) 0

/-- The 3x3 landing-tile offsets around a primary target, in the C++ scan
order (dx outer from -1 to 1, dy inner from -1 to 1). -/
def bomb_offsets : List (Int × Int) :=
  [(-1, -1), (-1, 0), (-1, 1), (0, -1), (0, 0), (0, 1), (1, -1), (1, 0), (1, 1)]

/-- The candidate scan of find_best_bombing_target_with_allies: best
landing tile (x, y, total damage), initialised to (-1, -1, 0), updated
only by candidates that are in bounds, within throw range, and pass the
friendly-fire check, with strictly larger total damage. -/
def bomb_scan (agent : AgentState) (board_width board_height : Int)
    (enemies allies : List AgentState) : Int × Int × Int :=
  enemies.foldl (fun best enemy =>
    if enemy.is_alive = false then best
    else if manhattan_distance agent.x agent.y enemy.x enemy.y > THROW_DISTANCE_MAX then best
    else bomb_offsets.foldl (fun best2 p =>
      if enemy.x + p.1 < 0 ∨ enemy.x + p.1 ≥ board_width
          ∨ enemy.y + p.2 < 0 ∨ enemy.y + p.2 ≥ board_height then best2
      else if manhattan_distance agent.x agent.y (enemy.x + p.1) (enemy.y + p.2)
          > THROW_DISTANCE_MAX then best2
      else if splash_hits_friendly agent.agent_id allies (enemy.x + p.1) (enemy.y + p.2)
          = true then best2
      else if calculate_total_splash_damage_clean enemies (enemy.x + p.1) (enemy.y + p.2)
          > best2.2.2 then
        (enemy.x + p.1, enemy.y + p.2,
          calculate_total_splash_damage_clean enemies (enemy.x + p.1) (enemy.y + p.2))
      else best2) best)
    (-1, -1, 0)

/-- Decision assembly after the bomb scan. -/
def bomb_decision_of_scan (enemies : List AgentState) (scan : Int × Int × Int) : TacticalDecision :=
  if scan.1 ≠ -1 ∧ scan.2.1 ≠ -1 ∧ scan.2.2 > 0 then
    { action_type := "THROW", target_x := scan.1, target_y := scan.2.1,
      expected_value := scan.2.2 * 20
        + (if count_enemies_in_splash_clean enemies scan.1 scan.2.1 > 1
            then count_enemies_in_splash_clean enemies scan.1 scan.2.1 * 500 else 0),
      expected_damage := scan.2.2 }
  else hunker_decision

/-- SmartGameAI::find_best_bombing_target_with_allies. -/
def find_best_bombing_target_with_allies (agent : AgentState)
    (board_width board_height : Int) (enemies allies : List AgentState) : TacticalDecision :=
  if agent.cooldown > 0 ∨ agent.splash_bombs ≤ 0 then hunker_decision
  else bomb_decision_of_scan enemies (bomb_scan agent board_width board_height enemies allies)

/-- SmartGameAI::evaluate_focus_fire: an unconditional shot or bomb at the
shared priority target; note the absence of any ally check on the bomb
landing tile (the target's own position). -/
def evaluate_focus_fire (data : AgentData) (agent priority_target : AgentState) : TacticalDecision :=
  let distance := manhattan_distance agent.x agent.y priority_target.x priority_target.y
  let focus1 :=
    if agent.cooldown = 0 ∧ distance ≤ data.optimal_range then
      if data.soaking_power > 0 then
        { action_type := "SHOOT", target_agent_id := priority_target.agent_id,
          expected_value := data.soaking_power * 200
            + (if priority_target.wetness + data.soaking_power ≥ 100 then 10000
                else (priority_target.wetness + data.soaking_power) * 100),
          expected_damage := data.soaking_power }
      else hunker_decision
    else hunker_decision
  if agent.splash_bombs > 0 ∧ agent.wetness < 80 then
    if manhattan_distance agent.x agent.y priority_target.x priority_target.y
        ≤ THROW_DISTANCE_MAX then
      if 30 * 150 + (if priority_target.wetness + 30 ≥ 100 then 8000 else 0)
          > focus1.expected_value then
        { action_type := "THROW", target_x := priority_target.x, target_y := priority_target.y,
          expected_value := 30 * 150 + (if priority_target.wetness + 30 ≥ 100 then 8000 else 0),
          expected_damage := 30 }
      else focus1
    else focus1
  else focus1

/-- Fold invariant preservation. -/
theorem foldl_preserve {α β : Type} (Q : β → Prop) (f : β → α → β)
    (hf : ∀ b x, Q b → Q (f b x)) :
    ∀ (l : List α) (b : β), Q b → Q (l.foldl f b) := by
  intro l
  induction l with
  | nil => intro b hb; exact hb
  | cons x xs ih =>
    intro b hb
    rw [List.foldl_cons]
    exact ih (f b x) (hf b x hb)

/-- Every positive-damage best candidate retained by the bomb scan passed
the friendly-fire check. -/
theorem bomb_scan_no_friendly (agent : AgentState) (board_width board_height : Int)
    (enemies allies : List AgentState) :
    (bomb_scan agent board_width board_height enemies allies).2.2 > 0 →
    splash_hits_friendly agent.agent_id allies
      (bomb_scan agent board_width board_height enemies allies).1
      (bomb_scan agent board_width board_height enemies allies).2.1 = false := by
  unfold bomb_scan
  refine (foldl_preserve
    (fun b => b.2.2 > 0 → splash_hits_friendly agent.agent_id allies b.1 b.2.1 = false)
    _ ?_ enemies (-1, -1, 0) (fun h => absurd h (by decide)))
  intro b enemy hb
  dsimp only
  split
  · exact hb
  · split
    · exact hb
    · refine foldl_preserve
        (fun b2 => b2.2.2 > 0 →
          splash_hits_friendly agent.agent_id allies b2.1 b2.2.1 = false)
        _ ?_ bomb_offsets b hb
      intro b2 p hb2
      dsimp only
      split
      · exact hb2
      · split
        · exact hb2
        · split
          · exact hb2
          · rename_i hnf
            split
            · intro _
              dsimp only
              by_cases hs : splash_hits_friendly agent.agent_id allies
                  (enemy.x + p.1) (enemy.y + p.2) = true
              · exact absurd hs hnf
              · simpa using hs
            · exact hb2

/-- Claim C4 (amended): the dedicated bombing-candidate generator never
proposes a Throw whose splash radius contains a living controlled agent
other than the thrower; the compound move+throw generator and the
focus-fire override perform no such check (see the counterexample). -/
theorem c4_no_friendly_fire_bombing (agent : AgentState) (board_width board_height : Int)
    (enemies allies : List AgentState)
    (h : (find_best_bombing_target_with_allies agent board_width board_height
        enemies allies).action_type = "THROW") :
    splash_hits_friendly agent.agent_id allies
      (find_best_bombing_target_with_allies agent board_width board_height
        enemies allies).target_x
      (find_best_bombing_target_with_allies agent board_width board_height
        enemies allies).target_y = false := by
  unfold find_best_bombing_target_with_allies at h ⊢
  by_cases hcool : agent.cooldown > 0 ∨ agent.splash_bombs ≤ 0
  · rw [if_pos hcool] at h
    exact absurd h (by decide)
  · rw [if_neg hcool] at h ⊢
    unfold bomb_decision_of_scan at h ⊢
    by_cases hfound : (bomb_scan agent board_width board_height enemies allies).1 ≠ -1
        ∧ (bomb_scan agent board_width board_height enemies allies).2.1 ≠ -1
        ∧ (bomb_scan agent board_width board_height enemies allies).2.2 > 0
    · rw [if_pos hfound]
      dsimp only
      exact bomb_scan_no_friendly agent board_width board_height enemies allies hfound.2.2
    · rw [if_neg hfound] at h
      exact absurd h (by decide)

/-- Claim C4 counterexample: the focus-fire override proposes a Throw at
(2,0) although the living ally with id 3 at (1,0) is inside the splash
radius of that landing tile. -/
theorem c4_counterexample :
    (evaluate_focus_fire ⟨1, 0, 5, 0, 10, 0⟩ ⟨1, 0, 0, 0, 1, 0⟩ ⟨9, 2, 0, 0, 0, 0⟩).action_type
      = "THROW"
    ∧ (evaluate_focus_fire ⟨1, 0, 5, 0, 10, 0⟩ ⟨1, 0, 0, 0, 1, 0⟩ ⟨9, 2, 0, 0, 0, 0⟩).target_x = 2
    ∧ (evaluate_focus_fire ⟨1, 0, 5, 0, 10, 0⟩ ⟨1, 0, 0, 0, 1, 0⟩ ⟨9, 2, 0, 0, 0, 0⟩).target_y = 0
    ∧ splash_hits_friendly 1 [⟨3, 1, 0, 0, 0, 0⟩] 2 0 = true := by
  refine ⟨by decide, by decide, by decide, by decide⟩

/-- Claim C4 witness: a concrete state in which the bombing generator does
return a Throw, and that throw's landing tile passes the friendly-fire
check. -/
theorem c4_witness :
    (find_best_bombing_target_with_allies ⟨1, 0, 0, 0, 1, 0⟩ 5 5
        [⟨2, 2, 0, 0, 0, 0⟩] [⟨1, 0, 0, 0, 1, 0⟩]).action_type = "THROW"
    ∧ splash_hits_friendly 1 [⟨1, 0, 0, 0, 1, 0⟩]
        (find_best_bombing_target_with_allies ⟨1, 0, 0, 0, 1, 0⟩ 5 5
          [⟨2, 2, 0, 0, 0, 0⟩] [⟨1, 0, 0, 0, 1, 0⟩]).target_x
        (find_best_bombing_target_with_allies ⟨1, 0, 0, 0, 1, 0⟩ 5 5
          [⟨2, 2, 0, 0, 0, 0⟩] [⟨1, 0, 0, 0, 1, 0⟩]).target_y = false :=
  ⟨by decide,
   c4_no_friendly_fire_bombing ⟨1, 0, 0, 0, 1, 0⟩ 5 5
     [⟨2, 2, 0, 0, 0, 0⟩] [⟨1, 0, 0, 0, 1, 0⟩] (by decide)⟩

/-- SmartGameAI::determine_agent_class, the priority-ordered rule table. -/
def determine_agent_class (data : AgentData) : GameAgentClass :=
  if data.optimal_range = 6 ∧ data.soaking_power = 24 then GameAgentClass.SNIPER
  else if data.optimal_range = 2 ∧ data.splash_bombs ≥ 3 then GameAgentClass.BOMBER
  else if data.optimal_range = 2 ∧ data.soaking_power = 32 then GameAgentClass.BERSERKER
  else if data.optimal_range = 4 ∧ data.splash_bombs ≥ 2 then GameAgentClass.ASSAULT
  else GameAgentClass.GUNNER

/-- The neighbour scan order of calculate_cover_protection (dx outer from
-1 to 1, dy inner, skipping (0,0)). -/
def cover_offsets : List (Int × Int) :=
  [(-1, -1), (-1, 0), (-1, 1), (0, -1), (0, 1), (1, -1), (1, 0), (1, 1)]

/-- The tile type read of calculate_cover_protection (0 outside the
stored grid, as the size checks make the C++ read default to 0). -/
def cover_type_at (tile_map : List (List Int)) (cover_x cover_y : Int) : Int :=
  if 0 ≤ cover_y ∧ (cover_y : Int) < tile_map.length
      ∧ 0 ≤ cover_x ∧ (cover_x : Int) < (tile_map.getD cover_y.toNat []).length then
    (tile_map.getD cover_y.toNat []).getD cover_x.toNat 0
  else 0

/-- One neighbour of the target blocks the shot: it is in board bounds,
holds cover terrain, and lies between shooter and target on an axis. -/
def cover_blocks_at (board_width board_height : Int) (tile_map : List (List Int))
    (shooter target : AgentState) (p : Int × Int) : Bool :=
  if 0 ≤ target.x + p.1 ∧ target.x + p.1 < board_width
      ∧ 0 ≤ target.y + p.2 ∧ target.y + p.2 < board_height then
    if cover_type_at tile_map (target.x + p.1) (target.y + p.2) = 1
        ∨ cover_type_at tile_map (target.x + p.1) (target.y + p.2) = 2 then
      (target.x + p.1 = target.x + 1 ∧ shooter.x < target.x)
        ∨ (target.x + p.1 = target.x - 1 ∧ shooter.x > target.x)
        ∨ (target.y + p.2 = target.y + 1 ∧ shooter.y < target.y)
        ∨ (target.y + p.2 = target.y - 1 ∧ shooter.y > target.y)
    else false
  else false

/-- SmartGameAI::calculate_cover_protection.  The double multiplier is
stored in quarter units: 4 = 1.0 (no cover), 2 = 0.5 (light), 1 = 0.25
(heavy); the first blocking neighbour in scan order decides. -/
def calculate_cover_protection (board_width board_height : Int) (tile_map : List (List Int))
    (shooter target : AgentState) : Int :=
  match cover_offsets.find? (cover_blocks_at board_width board_height tile_map shooter target) with
  | some p => if cover_type_at tile_map (target.x + p.1) (target.y + p.2) = 1 then 2 else 1
  | none => 4

/-- SmartGameAI::find_best_shooting_target: best-scoring shot over living
enemies within twice the optimal range (half damage beyond it), including
the cover multiplier ((int)(base * mult) = tdiv (base * quarters) 4) and
the wound multipliers (ev * 1.5 = tdiv (3 * ev) 2, exact since every score
entering it is even). -/
def find_best_shooting_target (data : AgentData) (board_width board_height : Int)
    (tile_map : List (List Int)) (agent : AgentState) (enemies : List AgentState) :
    TacticalDecision :=
  if agent.cooldown > 0 ∨ enemies = [] then hunker_decision
  else enemies.foldl (fun best enemy =>
    if enemy.is_alive = false then best
    else if manhattan_distance agent.x agent.y enemy.x enemy.y > data.optimal_range * 2 then best
    else
      let distance := manhattan_distance agent.x agent.y enemy.x enemy.y
      let base_damage := if distance > data.optimal_range
        then Int.tdiv data.soaking_power 2 else data.soaking_power
      let final_damage := Int.tdiv
        (base_damage * calculate_cover_protection board_width board_height tile_map agent enemy) 4
      if final_damage > 0 then
        let ev0 := final_damage * 150 + (if enemy.wetness + final_damage ≥ 100 then 8000
          else (enemy.wetness + final_damage) * 80)
        let ev1 := if enemy.wetness > 50 then Int.tdiv (3 * ev0) 2 else ev0
        let ev2 := if enemy.wetness > 80 then ev1 * 2 else ev1
        if ev2 > best.expected_value then
          { action_type := "SHOOT", target_agent_id := enemy.agent_id,
            expected_value := ev2, expected_damage := final_damage }
        else best
      else best) hunker_decision

/-- The 8-direction scan order of evaluate_tactical_movement. -/
def move_dirs : List (Int × Int) :=
  [(-1, 0), (1, 0), (0, -1), (0, 1), (-1, -1), (-1, 1), (1, -1), (1, 1)]

/-- Positions occupied by living other allies and living enemies. -/
def occupied_positions_for (agent : AgentState) (enemies allies : List AgentState) :
    List (Int × Int) :=
  (allies.filter (fun al => al.agent_id ≠ agent.agent_id ∧ al.is_alive = true)).map
      (fun al => (al.x, al.y))
    ++ (enemies.filter (fun e => e.is_alive = true)).map (fun e => (e.x, e.y))

/-- The per-tile score of evaluate_tactical_movement before the cap: base
150, wetness movement-cost penalty, then per living enemy the
entering-range, in-range, class-table and wounded-pursuit bonuses. -/
def movement_value (data : AgentData) (agent : AgentState) (enemies : List AgentState)
    (nx ny : Int) : Int :=
  enemies.foldl (fun v enemy =>
    if enemy.is_alive = false then v
    else
      let current_distance := manhattan_distance agent.x agent.y enemy.x enemy.y
      let new_distance := manhattan_distance nx ny enemy.x enemy.y
      let v := v + (if new_distance ≤ data.optimal_range
        ∧ current_distance > data.optimal_range then 1000 else 0)
      let v := v + (if new_distance ≤ data.optimal_range then 500 else 0)
      let v := v + (match determine_agent_class data with
        | GameAgentClass.SNIPER => if new_distance ≥ 4 ∧ new_distance ≤ 6 then 700 else 0
        | GameAgentClass.BOMBER => if new_distance ≤ 4 then 600 else 0
        | GameAgentClass.BERSERKER => if new_distance ≤ 2 then 800 else 0
        | _ => if new_distance ≤ 4 then 400 else 0)
      v + (if enemy.wetness > 50 ∧ new_distance < current_distance then 300 else 0))
    (150 - (if calculate_movement_cost agent.wetness > 1
      then (calculate_movement_cost agent.wetness - 1) * 50 else 0))

/-- SmartGameAI::evaluate_tactical_movement: scan the 8 neighbours, skip
out-of-bounds and occupied tiles, score each, cap the score at 1500, keep
the strict best (Hunker with value 0 if none). -/
def evaluate_tactical_movement (data : AgentData) (board_width board_height : Int)
    (agent : AgentState) (enemies allies : List AgentState) : TacticalDecision :=
  move_dirs.foldl (fun best p =>
    if agent.x + p.1 < 0 ∨ agent.x + p.1 ≥ board_width
        ∨ agent.y + p.2 < 0 ∨ agent.y + p.2 ≥ board_height then best
    else if (occupied_positions_for agent enemies allies).any
        (fun q => q.1 = agent.x + p.1 ∧ q.2 = agent.y + p.2) then best
    else
      let value := movement_value data agent enemies (agent.x + p.1) (agent.y + p.2)
      let value := if value > 1500 then 1500 else value
      if value > best.expected_value then
        { action_type := "MOVE", target_x := agent.x + p.1, target_y := agent.y + p.2,
          expected_value := value }
      else best) hunker_decision

/-- Claim C8 (amended): evaluate_tactical_movement caps every movement
candidate's expected value at 1500; this cap is NOT strictly below the
minimum expected value of an available attack candidate (which can be as
low as 230), so a movement candidate can outscore an available attack
(see the counterexample). -/
theorem c8_movement_cap (data : AgentData) (board_width board_height : Int)
    (agent : AgentState) (enemies allies : List AgentState) :
    (evaluate_tactical_movement data board_width board_height agent
      enemies allies).expected_value ≤ 1500 := by
  unfold evaluate_tactical_movement
  refine foldl_preserve (fun b => b.expected_value ≤ 1500) _ ?_ move_dirs hunker_decision
    (by decide)
  intro b p hb
  dsimp only
  split
  · exact hb
  · split
    · exact hb
    · split
      · split
        · dsimp only
          omega
        · exact hb
      · split
        · dsimp only
          omega
        · exact hb

/-- Claim C8 counterexample: with power 1 and range 1, the enemy at
distance 1 is a living in-range attack candidate with positive damage and
expected value 230 while the movement candidate to (1,1) scores 1050 —
the movement maximum is not below the attack's value. -/
theorem c8_counterexample :
    (⟨2, 1, 0, 0, 0, 0⟩ : AgentState).is_alive = true
    ∧ manhattan_distance 0 0 1 0 ≤ (⟨1, 0, 5, 1, 1, 0⟩ : AgentData).optimal_range
    ∧ (find_best_shooting_target ⟨1, 0, 5, 1, 1, 0⟩ 5 5
        (List.replicate 5 (List.replicate 5 0)) ⟨1, 0, 0, 0, 0, 0⟩
        [⟨2, 1, 0, 0, 0, 0⟩]).action_type = "SHOOT"
    ∧ (find_best_shooting_target ⟨1, 0, 5, 1, 1, 0⟩ 5 5
        (List.replicate 5 (List.replicate 5 0)) ⟨1, 0, 0, 0, 0, 0⟩
        [⟨2, 1, 0, 0, 0, 0⟩]).expected_damage = 1
    ∧ (find_best_shooting_target ⟨1, 0, 5, 1, 1, 0⟩ 5 5
        (List.replicate 5 (List.replicate 5 0)) ⟨1, 0, 0, 0, 0, 0⟩
        [⟨2, 1, 0, 0, 0, 0⟩]).expected_value = 230
    ∧ (evaluate_tactical_movement ⟨1, 0, 5, 1, 1, 0⟩ 5 5 ⟨1, 0, 0, 0, 0, 0⟩
        [⟨2, 1, 0, 0, 0, 0⟩] [⟨1, 0, 0, 0, 0, 0⟩]).action_type = "MOVE"
    ∧ (evaluate_tactical_movement ⟨1, 0, 5, 1, 1, 0⟩ 5 5 ⟨1, 0, 0, 0, 0, 0⟩
        [⟨2, 1, 0, 0, 0, 0⟩] [⟨1, 0, 0, 0, 0, 0⟩]).expected_value = 1050
    ∧ ¬ ((1050 : Int) < 230) := by
  refine ⟨by decide, by decide, by decide, by decide, by decide, by decide, by decide, by decide⟩

/-- Move-class decisions as tested by the orchestrator's collision pass. -/
def is_move_class (t : String) : Bool :=
  decide (t = "MOVE" ∨ t = "MOVE_SHOOT" ∨ t = "MOVE_THROW")

/-- Membership of a position in the movement blacklist / occupancy list
(std::set::count rendered on an accumulation list). -/
def pos_mem (p : Int × Int) : List (Int × Int) → Bool
  | [] => false
  | q :: qs => if q = p then true else pos_mem p qs

/-- The alternative scan order of the collision pass: E, W, S, N then the
four diagonals. -/
def alt_dirs : List (Int × Int) :=
  [(1, 0), (-1, 0), (0, 1), (0, -1), (1, 1), (-1, 1), (1, -1), (-1, -1)]

/-- Positions of the other controlled agents and of every enemy, as
consulted by the collision pass (no liveness filter there). -/
def occupied_for (aid : Int) (ctrl enemies : List AgentState) : List (Int × Int) :=
  (ctrl.filter (fun o => o.agent_id ≠ aid)).map (fun o => (o.x, o.y))
    ++ enemies.map (fun o => (o.x, o.y))

/-- The first in-bounds, unclaimed, unoccupied tile among the 8 neighbours
of the proposed tile, in alt_dirs order. -/
def find_alternative (board_width board_height : Int) (bl occ : List (Int × Int))
    (tx ty : Int) : Option (Int × Int) :=
  (alt_dirs.map (fun p => (tx + p.1, ty + p.2))).find? (fun q =>
    decide (0 ≤ q.1 ∧ q.1 < board_width ∧ 0 ≤ q.2 ∧ q.2 < board_height
      ∧ pos_mem q bl = false ∧ pos_mem q occ = false))

/-- The orchestrator's left-to-right movement collision pass over the
per-agent decisions, threading the blacklist of reserved tiles: an
unclaimed proposal is accepted and reserved (without any bounds check); a
claimed one is rerouted to the first valid neighbour of the proposed tile
or demoted to Hunker. -/
def resolve_collisions (board_width board_height : Int) (ctrl enemies : List AgentState) :
    List (Int × TacticalDecision) → List (Int × Int) → List (Int × TacticalDecision)
  | [], _ => []
  | (aid, d) :: rest, bl =>
    if is_move_class d.action_type = true then
      if pos_mem (d.target_x, d.target_y) bl = true then
        match find_alternative board_width board_height bl (occupied_for aid ctrl enemies)
            d.target_x d.target_y with
        | some q => (aid, { d with target_x := q.1, target_y := q.2 })
            :: resolve_collisions board_width board_height ctrl enemies rest (q :: bl)
        | none => (aid, { d with action_type := "HUNKER_DOWN" })
            :: resolve_collisions board_width board_height ctrl enemies rest bl
      else (aid, d)
        :: resolve_collisions board_width board_height ctrl enemies rest
            ((d.target_x, d.target_y) :: bl)
    else (aid, d) :: resolve_collisions board_width board_height ctrl enemies rest bl

/-- The destination tiles of the finalized Move-class decisions. -/
def finalized_move_targets (out : List (Int × TacticalDecision)) : List (Int × Int) :=
  out.filterMap (fun q =>
    if is_move_class q.2.action_type = true then some (q.2.target_x, q.2.target_y) else none)

/-- find_alternative only returns tiles passing all its checks. -/
theorem find_alternative_spec (board_width board_height : Int) (bl occ : List (Int × Int))
    (tx ty : Int) (q : Int × Int)
    (h : find_alternative board_width board_height bl occ tx ty = some q) :
    0 ≤ q.1 ∧ q.1 < board_width ∧ 0 ≤ q.2 ∧ q.2 < board_height
      ∧ pos_mem q bl = false ∧ pos_mem q occ = false := by
  unfold find_alternative at h
  have h2 := List.find?_some h
  exact of_decide_eq_true h2

/-- Absence from an extended blacklist. -/
theorem pos_mem_cons_false (q tp : Int × Int) (bl : List (Int × Int)) :
    pos_mem q (tp :: bl) = false ↔ q ≠ tp ∧ pos_mem q bl = false := by
  by_cases h : tp = q
  · subst h
    simp [pos_mem]
  · have h2 : q ≠ tp := fun hqe => h hqe.symm
    simp [pos_mem, h, h2]

/-- The collision pass yields pairwise distinct Move destinations, all
absent from the incoming blacklist. -/
theorem resolve_collisions_nodup (board_width board_height : Int)
    (ctrl enemies : List AgentState) :
    ∀ (ds : List (Int × TacticalDecision)) (bl : List (Int × Int)),
    (finalized_move_targets
        (resolve_collisions board_width board_height ctrl enemies ds bl)).Nodup
    ∧ ∀ q ∈ finalized_move_targets
        (resolve_collisions board_width board_height ctrl enemies ds bl),
        pos_mem q bl = false := by
  intro ds
  induction ds with
  | nil =>
    intro bl
    constructor
    · simp [resolve_collisions, finalized_move_targets]
    · intro q hq
      simp [resolve_collisions, finalized_move_targets] at hq
  | cons hd rest ih =>
    obtain ⟨aid, d⟩ := hd
    intro bl
    by_cases hm : is_move_class d.action_type = true
    · by_cases hbl : pos_mem (d.target_x, d.target_y) bl = true
      · cases hfa : find_alternative board_width board_height bl
            (occupied_for aid ctrl enemies) d.target_x d.target_y with
        | some q =>
          have hres : resolve_collisions board_width board_height ctrl enemies
              ((aid, d) :: rest) bl
              = (aid, { d with target_x := q.1, target_y := q.2 })
                :: resolve_collisions board_width board_height ctrl enemies rest (q :: bl) := by
            simp [resolve_collisions, hm, hbl, hfa]
          have hfin : finalized_move_targets (resolve_collisions board_width board_height
              ctrl enemies ((aid, d) :: rest) bl)
              = q :: finalized_move_targets
                  (resolve_collisions board_width board_height ctrl enemies rest (q :: bl)) := by
            rw [hres]
            simp [finalized_move_targets, hm]
          rw [hfin]
          obtain ⟨hnd, hmem⟩ := ih (q :: bl)
          have hspec := find_alternative_spec board_width board_height bl
            (occupied_for aid ctrl enemies) d.target_x d.target_y q hfa
          constructor
          · rw [List.nodup_cons]
            refine ⟨?_, hnd⟩
            intro hqmem
            have h2 := hmem q hqmem
            simp [pos_mem] at h2
          · intro p hp
            rcases List.mem_cons.mp hp with hpq | hprest
            · cases hpq
              exact hspec.2.2.2.2.1
            · exact ((pos_mem_cons_false p q bl).mp (hmem p hprest)).2
        | none =>
          have hres : resolve_collisions board_width board_height ctrl enemies
              ((aid, d) :: rest) bl
              = (aid, { d with action_type := "HUNKER_DOWN" })
                :: resolve_collisions board_width board_height ctrl enemies rest bl := by
            simp [resolve_collisions, hm, hbl, hfa]
          have hfin : finalized_move_targets (resolve_collisions board_width board_height
              ctrl enemies ((aid, d) :: rest) bl)
              = finalized_move_targets
                  (resolve_collisions board_width board_height ctrl enemies rest bl) := by
            rw [hres]
            simp [finalized_move_targets, is_move_class]
          rw [hfin]
          exact ih bl
      · have hres : resolve_collisions board_width board_height ctrl enemies
            ((aid, d) :: rest) bl
            = (aid, d) :: resolve_collisions board_width board_height ctrl enemies rest
                ((d.target_x, d.target_y) :: bl) := by
          simp [resolve_collisions, hm, hbl]
        have hfin : finalized_move_targets (resolve_collisions board_width board_height
            ctrl enemies ((aid, d) :: rest) bl)
            = (d.target_x, d.target_y) :: finalized_move_targets
                (resolve_collisions board_width board_height ctrl enemies rest
                  ((d.target_x, d.target_y) :: bl)) := by
          rw [hres]
          simp [finalized_move_targets, hm]
        rw [hfin]
        obtain ⟨hnd, hmem⟩ := ih ((d.target_x, d.target_y) :: bl)
        constructor
        · rw [List.nodup_cons]
          refine ⟨?_, hnd⟩
          intro hqmem
          have h2 := hmem _ hqmem
          simp [pos_mem] at h2
        · intro p hp
          rcases List.mem_cons.mp hp with hpq | hprest
          · cases hpq
            cases hpm : pos_mem (d.target_x, d.target_y) bl
            · rfl
            · exact absurd hpm hbl
          · exact ((pos_mem_cons_false p (d.target_x, d.target_y) bl).mp (hmem p hprest)).2
    · have hres : resolve_collisions board_width board_height ctrl enemies
          ((aid, d) :: rest) bl
          = (aid, d) :: resolve_collisions board_width board_height ctrl enemies rest bl := by
        simp [resolve_collisions, hm]
      have hfin : finalized_move_targets (resolve_collisions board_width board_height
          ctrl enemies ((aid, d) :: rest) bl)
          = finalized_move_targets
              (resolve_collisions board_width board_height ctrl enemies rest bl) := by
        rw [hres]
        simp [finalized_move_targets, hm]
      rw [hfin]
      exact ih bl

/-- If every proposed Move-class destination is in bounds, so is every
finalized one (first-come proposals are passed through unchecked;
alternatives are bounds-checked by find_alternative). -/
theorem resolve_collisions_bounds (board_width board_height : Int)
    (ctrl enemies : List AgentState) :
    ∀ (ds : List (Int × TacticalDecision)) (bl : List (Int × Int)),
    (∀ q ∈ ds, is_move_class q.2.action_type = true →
      0 ≤ q.2.target_x ∧ q.2.target_x < board_width
        ∧ 0 ≤ q.2.target_y ∧ q.2.target_y < board_height) →
    ∀ p ∈ finalized_move_targets
        (resolve_collisions board_width board_height ctrl enemies ds bl),
      0 ≤ p.1 ∧ p.1 < board_width ∧ 0 ≤ p.2 ∧ p.2 < board_height := by
  intro ds
  induction ds with
  | nil =>
    intro bl hin p hp
    simp [resolve_collisions, finalized_move_targets] at hp
  | cons hd rest ih =>
    obtain ⟨aid, d⟩ := hd
    intro bl hin p hp
    have hinrest : ∀ q ∈ rest, is_move_class q.2.action_type = true →
        0 ≤ q.2.target_x ∧ q.2.target_x < board_width
          ∧ 0 ≤ q.2.target_y ∧ q.2.target_y < board_height :=
      fun q hq => hin q (List.mem_cons_of_mem _ hq)
    by_cases hm : is_move_class d.action_type = true
    · by_cases hbl : pos_mem (d.target_x, d.target_y) bl = true
      · cases hfa : find_alternative board_width board_height bl
            (occupied_for aid ctrl enemies) d.target_x d.target_y with
        | some q =>
          have hres : resolve_collisions board_width board_height ctrl enemies
              ((aid, d) :: rest) bl
              = (aid, { d with target_x := q.1, target_y := q.2 })
                :: resolve_collisions board_width board_height ctrl enemies rest (q :: bl) := by
            simp [resolve_collisions, hm, hbl, hfa]
          rw [hres] at hp
          have hfin : finalized_move_targets ((aid,
              { d with target_x := q.1, target_y := q.2 })
              :: resolve_collisions board_width board_height ctrl enemies rest (q :: bl))
              = q :: finalized_move_targets
                  (resolve_collisions board_width board_height ctrl enemies rest (q :: bl)) := by
            simp [finalized_move_targets, hm]
          rw [hfin] at hp
          have hspec := find_alternative_spec board_width board_height bl
            (occupied_for aid ctrl enemies) d.target_x d.target_y q hfa
          rcases List.mem_cons.mp hp with hpq | hprest
          · cases hpq
            exact ⟨hspec.1, hspec.2.1, hspec.2.2.1, hspec.2.2.2.1⟩
          · exact ih (q :: bl) hinrest p hprest
        | none =>
          have hres : resolve_collisions board_width board_height ctrl enemies
              ((aid, d) :: rest) bl
              = (aid, { d with action_type := "HUNKER_DOWN" })
                :: resolve_collisions board_width board_height ctrl enemies rest bl := by
            simp [resolve_collisions, hm, hbl, hfa]
          rw [hres] at hp
          have hfin : finalized_move_targets ((aid, { d with action_type := "HUNKER_DOWN" })
              :: resolve_collisions board_width board_height ctrl enemies rest bl)
              = finalized_move_targets
                  (resolve_collisions board_width board_height ctrl enemies rest bl) := by
            simp [finalized_move_targets, is_move_class]
          rw [hfin] at hp
          exact ih bl hinrest p hp
      · have hres : resolve_collisions board_width board_height ctrl enemies
            ((aid, d) :: rest) bl
            = (aid, d) :: resolve_collisions board_width board_height ctrl enemies rest
                ((d.target_x, d.target_y) :: bl) := by
          simp [resolve_collisions, hm, hbl]
        rw [hres] at hp
        have hfin : finalized_move_targets ((aid, d)
            :: resolve_collisions board_width board_height ctrl enemies rest
                ((d.target_x, d.target_y) :: bl))
            = (d.target_x, d.target_y) :: finalized_move_targets
                (resolve_collisions board_width board_height ctrl enemies rest
                  ((d.target_x, d.target_y) :: bl)) := by
          simp [finalized_move_targets, hm]
        rw [hfin] at hp
        rcases List.mem_cons.mp hp with hpq | hprest
        · cases hpq
          exact hin (aid, d) (List.mem_cons_self _ _) hm
        · exact ih ((d.target_x, d.target_y) :: bl) hinrest p hprest
    · have hres : resolve_collisions board_width board_height ctrl enemies
          ((aid, d) :: rest) bl
          = (aid, d) :: resolve_collisions board_width board_height ctrl enemies rest bl := by
        simp [resolve_collisions, hm]
      rw [hres] at hp
      have hfin : finalized_move_targets ((aid, d)
          :: resolve_collisions board_width board_height ctrl enemies rest bl)
          = finalized_move_targets
              (resolve_collisions board_width board_height ctrl enemies rest bl) := by
        simp [finalized_move_targets, hm]
      rw [hfin] at hp
      exact ih bl hinrest p hp

/-- Claim C3 (amended): the collision pass is deterministic and
left-to-right; the finalized Move destinations are pairwise distinct, and
they all lie in bounds provided every proposed destination does
(first-come proposals are reserved without a bounds check); a later agent
proposing an already-claimed tile adopts the first in-bounds, unclaimed,
unoccupied tile among the 8 neighbours of the proposed tile in the fixed
order E, W, S, N, then diagonals — not of the agent's own position — or
reduces to Hunker. -/
theorem c3_collision_resolution (board_width board_height : Int)
    (ctrl enemies : List AgentState) (ds : List (Int × TacticalDecision))
    (hin : ∀ q ∈ ds, is_move_class q.2.action_type = true →
      0 ≤ q.2.target_x ∧ q.2.target_x < board_width
        ∧ 0 ≤ q.2.target_y ∧ q.2.target_y < board_height) :
    (finalized_move_targets
        (resolve_collisions board_width board_height ctrl enemies ds [])).Nodup
    ∧ ∀ p ∈ finalized_move_targets
        (resolve_collisions board_width board_height ctrl enemies ds []),
      0 ≤ p.1 ∧ p.1 < board_width ∧ 0 ≤ p.2 ∧ p.2 < board_height :=
  ⟨(resolve_collisions_nodup board_width board_height ctrl enemies ds []).1,
   resolve_collisions_bounds board_width board_height ctrl enemies ds [] hin⟩

/-- Claim C3 counterexample: (a) an uncontested Move proposal to (-5,-5)
is finalized unchanged, so finalized destinations are not always in
bounds; (b) a second agent standing at (0,0) whose claimed proposal (3,3)
collides is rerouted to (4,3) — a neighbour of the proposed tile, not of
the agent's own 8-neighbourhood (Chebyshev distance 4 from (0,0)). -/
theorem c3_counterexample :
    finalized_move_targets (resolve_collisions 10 10 [⟨1, 0, 0, 0, 0, 0⟩] []
        [(1, { action_type := "MOVE", target_x := -5, target_y := -5 })] []) = [(-5, -5)]
    ∧ ¬ (0 ≤ (-5 : Int))
    ∧ finalized_move_targets (resolve_collisions 10 10
        [⟨1, 2, 3, 0, 0, 0⟩, ⟨2, 0, 0, 0, 0, 0⟩] []
        [(1, { action_type := "MOVE", target_x := 3, target_y := 3 }),
         (2, { action_type := "MOVE", target_x := 3, target_y := 3 })] []) = [(3, 3), (4, 3)]
    ∧ ¬ (max |(4 : Int) - 0| |(3 : Int) - 0| ≤ 1) := by
  refine ⟨by decide, by decide, by decide, by decide⟩

/-- Claim C3 witness: the amended statement at the concrete two-agent
collision scenario with in-bounds proposals. -/
theorem c3_witness :
    (∀ q ∈ ([(1, { action_type := "MOVE", target_x := 3, target_y := 3 }),
        (2, { action_type := "MOVE", target_x := 3, target_y := 3 })]
          : List (Int × TacticalDecision)),
      is_move_class q.2.action_type = true →
      0 ≤ q.2.target_x ∧ q.2.target_x < 10 ∧ 0 ≤ q.2.target_y ∧ q.2.target_y < 10)
    ∧ ((finalized_move_targets (resolve_collisions 10 10
          [⟨1, 2, 3, 0, 0, 0⟩, ⟨2, 0, 0, 0, 0, 0⟩] []
          [(1, { action_type := "MOVE", target_x := 3, target_y := 3 }),
           (2, { action_type := "MOVE", target_x := 3, target_y := 3 })] [])).Nodup
      ∧ ∀ p ∈ finalized_move_targets (resolve_collisions 10 10
          [⟨1, 2, 3, 0, 0, 0⟩, ⟨2, 0, 0, 0, 0, 0⟩] []
          [(1, { action_type := "MOVE", target_x := 3, target_y := 3 }),
           (2, { action_type := "MOVE", target_x := 3, target_y := 3 })] []),
        0 ≤ p.1 ∧ p.1 < 10 ∧ 0 ≤ p.2 ∧ p.2 < 10) :=
  ⟨by decide,
   c3_collision_resolution 10 10 [⟨1, 2, 3, 0, 0, 0⟩, ⟨2, 0, 0, 0, 0, 0⟩]
     [] [(1, { action_type := "MOVE", target_x := 3, target_y := 3 }),
         (2, { action_type := "MOVE", target_x := 3, target_y := 3 })] (by decide)⟩

/-- The per-agent Hunker fallback line of the match loop. -/
def hunker_line (agent_id : Int) : String := toString agent_id ++ ";HUNKER_DOWN"

/-- SmartGameAI::format_compound_action. -/
def format_compound_action (agent_id : Int) (decision : TacticalDecision) : String :=
  if decision.action_type = "SHOOT" then
    toString agent_id ++ ";SHOOT " ++ toString decision.target_agent_id ++ "; HUNKER_DOWN"
  else if decision.action_type = "MOVE" then
    toString agent_id ++ ";MOVE " ++ toString decision.target_x ++ " "
      ++ toString decision.target_y ++ "; HUNKER_DOWN"
  else if decision.action_type = "THROW" then
    toString agent_id ++ ";THROW " ++ toString decision.target_x ++ " "
      ++ toString decision.target_y ++ "; HUNKER_DOWN"
  else if decision.action_type = "MOVE_SHOOT" then
    toString agent_id ++ ";MOVE " ++ toString decision.target_x ++ " "
      ++ toString decision.target_y ++ "; SHOOT " ++ toString decision.target_agent_id
  else if decision.action_type = "MOVE_THROW" then
    toString agent_id ++ ";MOVE " ++ toString decision.target_x ++ " "
      ++ toString decision.target_y ++ "; THROW " ++ toString decision.bomb_x ++ " "
      ++ toString decision.bomb_y
  else
    toString agent_id ++ ";HUNKER_DOWN"

/-- The claimed line grammar: agentId;PRIMARY with an optional
"; SECONDARY". -/
def mk_action_line (agent_id : Int) (primary : String) (secondary : Option String) : String :=
  match secondary with
  | some s => toString agent_id ++ ";" ++ primary ++ "; " ++ s
  | none => toString agent_id ++ ";" ++ primary

/-- The claimed action tokens (SHOOT replaces the claimed ATTACK in the
amended grammar; attack_tok keeps the claim's original keyword). -/
def hunker_tok : String := "HUNKER_DOWN"

/-- MOVE x y token. -/
def move_tok (x y : Int) : String := "MOVE " ++ toString x ++ " " ++ toString y

/-- SHOOT targetId token, as the code emits. -/
def shoot_tok (t : Int) : String := "SHOOT " ++ toString t

/-- THROW x y token. -/
def throw_tok (x y : Int) : String := "THROW " ++ toString x ++ " " ++ toString y

/-- ATTACK targetId token, the claim's stated keyword. -/
def attack_tok (t : Int) : String := "ATTACK " ++ toString t

/-- Merging a literal prefix into a right-associated append chain. -/
theorem string_append_left_lit (a b c : String) (h : a ++ b = c) (x : String) :
    a ++ (b ++ x) = c ++ x := by
  rw [← String.append_assoc, h]

/-- Decision lookup of the output loop (map access with Hunker default). -/
def lookup_decision (agent_decisions : List (Int × TacticalDecision)) (aid : Int) :
    TacticalDecision :=
  match agent_decisions.find? (fun q => decide (q.1 = aid)) with
  | some q => q.2
  | none => hunker_decision

/-- The safe default agent id for surplus output lines: the first living
agent if any, else the first profile id. -/
def fallback_agent_id (alive_agents : List AgentState) (my_agent_ids : List Int) : Int :=
  match alive_agents.head? with
  | some a0 => a0.agent_id
  | none => my_agent_ids.headD 0

/-- The per-turn output loop: one line per expected output slot; slots
beyond the living agents emit the safe default Hunker line. -/
def emit_lines (my_agent_count : Nat) (alive_agents : List AgentState)
    (agent_decisions : List (Int × TacticalDecision)) (my_agent_ids : List Int) :
    List String :=
  (List.range my_agent_count).map (fun line =>
    match alive_agents[line]? with
    | some ag => format_compound_action ag.agent_id (lookup_decision agent_decisions ag.agent_id)
    | none => hunker_line (fallback_agent_id alive_agents my_agent_ids))

/-- The try/catch around a turn's decision computation: a normal turn
emits its computed lines; an exception falls back to one Hunker line per
controlled profile agent id. -/
def turn_output (my_agent_ids : List Int) (my_agent_count : Nat)
    (computed : Except Unit (List String)) : List String :=
  match computed with
  | Except.ok lines => lines
  | Except.error _ => my_agent_ids.map hunker_line

/-- Claim C5 (amended): the normal path emits exactly the required number
of lines; on an exception the orchestrator emits one Hunker line per
controlled profile agent id for that turn (the count matches the required
line count only when the two coincide) and the loop continues. -/
theorem c5_failure_semantics (my_agent_count : Nat) (alive_agents : List AgentState)
    (agent_decisions : List (Int × TacticalDecision)) (my_agent_ids : List Int) :
    (emit_lines my_agent_count alive_agents agent_decisions my_agent_ids).length
      = my_agent_count
    ∧ (turn_output my_agent_ids my_agent_count (Except.error ())).length
      = my_agent_ids.length
    ∧ (∀ s ∈ turn_output my_agent_ids my_agent_count (Except.error ()),
        ∃ i ∈ my_agent_ids, s = hunker_line i)
    ∧ turn_output my_agent_ids my_agent_count
        (Except.ok (emit_lines my_agent_count alive_agents agent_decisions my_agent_ids))
      = emit_lines my_agent_count alive_agents agent_decisions my_agent_ids := by
  refine ⟨?_, ?_, ?_, rfl⟩
  · simp [emit_lines]
  · simp [turn_output]
  · intro s hs
    simp only [turn_output, List.mem_map] at hs
    obtain ⟨i, hi, hsi⟩ := hs
    exact ⟨i, hi, hsi.symm⟩

/-- Claim C5 counterexample: with two profile agents and a required line
count of 1, the exception path emits 2 lines, not the required 1. -/
theorem c5_counterexample :
    (turn_output [7, 8] 1 (Except.error ())).length = 2 ∧ (2 : Nat) ≠ 1 := by
  refine ⟨by decide, by decide⟩

/-- Claim C5 witness: the amended failure semantics at a concrete turn
with no living agents, required count 1 and profiles 7 and 8. -/
theorem c5_witness :
    (emit_lines 1 [] [] [7, 8]).length = 1
    ∧ (turn_output [7, 8] 1 (Except.error ())).length = ([7, 8] : List Int).length
    ∧ (∀ s ∈ turn_output [7, 8] 1 (Except.error ()), ∃ i ∈ ([7, 8] : List Int), s = hunker_line i)
    ∧ turn_output [7, 8] 1 (Except.ok (emit_lines 1 [] [] [7, 8])) = emit_lines 1 [] [] [7, 8] :=
  c5_failure_semantics 1 [] [] [7, 8]

/-- Claim C9 (amended): every formatted line is agentId;PRIMARY with an
optional "; SECONDARY", where the shoot keyword is SHOOT (not ATTACK);
plain Move/Shoot/Throw emit their primary plus a trailing Hunker
secondary, a plain Hunker emits no secondary, compound actions emit a
move primary plus a shoot/throw secondary, and every output slot beyond
the living agents emits the safe default agent id with HUNKER_DOWN. -/
theorem c9_output_format (agent_id tx ty tid bx bvy ev ed : Int)
    (my_agent_count : Nat) (alive_agents : List AgentState)
    (agent_decisions : List (Int × TacticalDecision)) (my_agent_ids : List Int)
    (line : Nat) (hline : alive_agents.length ≤ line) (hcount : line < my_agent_count) :
    format_compound_action agent_id ⟨"SHOOT", tx, ty, tid, bx, bvy, ev, ed⟩
      = mk_action_line agent_id (shoot_tok tid) (some hunker_tok)
    ∧ format_compound_action agent_id ⟨"MOVE", tx, ty, tid, bx, bvy, ev, ed⟩
      = mk_action_line agent_id (move_tok tx ty) (some hunker_tok)
    ∧ format_compound_action agent_id ⟨"THROW", tx, ty, tid, bx, bvy, ev, ed⟩
      = mk_action_line agent_id (throw_tok tx ty) (some hunker_tok)
    ∧ format_compound_action agent_id ⟨"MOVE_SHOOT", tx, ty, tid, bx, bvy, ev, ed⟩
      = mk_action_line agent_id (move_tok tx ty) (some (shoot_tok tid))
    ∧ format_compound_action agent_id ⟨"MOVE_THROW", tx, ty, tid, bx, bvy, ev, ed⟩
      = mk_action_line agent_id (move_tok tx ty) (some (throw_tok bx bvy))
    ∧ format_compound_action agent_id ⟨"HUNKER_DOWN", tx, ty, tid, bx, bvy, ev, ed⟩
      = mk_action_line agent_id hunker_tok none
    ∧ (emit_lines my_agent_count alive_agents agent_decisions my_agent_ids)[line]?
      = some (hunker_line (fallback_agent_id alive_agents my_agent_ids)) := by
  refine ⟨?_, ?_, ?_, ?_, ?_, ?_, ?_⟩
  · show toString agent_id ++ ";SHOOT " ++ toString tid ++ "; HUNKER_DOWN"
      = mk_action_line agent_id (shoot_tok tid) (some hunker_tok)
    unfold mk_action_line shoot_tok hunker_tok
    simp only [String.append_assoc]
    rw [string_append_left_lit ";" "SHOOT " ";SHOOT " (by decide)]
    simp
  · show toString agent_id ++ ";MOVE " ++ toString tx ++ " " ++ toString ty ++ "; HUNKER_DOWN"
      = mk_action_line agent_id (move_tok tx ty) (some hunker_tok)
    unfold mk_action_line move_tok hunker_tok
    simp only [String.append_assoc]
    rw [string_append_left_lit ";" "MOVE " ";MOVE " (by decide)]
    simp
  · show toString agent_id ++ ";THROW " ++ toString tx ++ " " ++ toString ty ++ "; HUNKER_DOWN"
      = mk_action_line agent_id (throw_tok tx ty) (some hunker_tok)
    unfold mk_action_line throw_tok hunker_tok
    simp only [String.append_assoc]
    rw [string_append_left_lit ";" "THROW " ";THROW " (by decide)]
    simp
  · show toString agent_id ++ ";MOVE " ++ toString tx ++ " " ++ toString ty ++ "; SHOOT "
        ++ toString tid
      = mk_action_line agent_id (move_tok tx ty) (some (shoot_tok tid))
    unfold mk_action_line move_tok shoot_tok
    simp only [String.append_assoc]
    rw [string_append_left_lit ";" "MOVE " ";MOVE " (by decide)]
    rw [string_append_left_lit "; " "SHOOT " "; SHOOT " (by decide)]
  · show toString agent_id ++ ";MOVE " ++ toString tx ++ " " ++ toString ty ++ "; THROW "
        ++ toString bx ++ " " ++ toString bvy
      = mk_action_line agent_id (move_tok tx ty) (some (throw_tok bx bvy))
    unfold mk_action_line move_tok throw_tok
    simp only [String.append_assoc]
    rw [string_append_left_lit ";" "MOVE " ";MOVE " (by decide)]
    rw [string_append_left_lit "; " "THROW " "; THROW " (by decide)]
  · show toString agent_id ++ ";HUNKER_DOWN" = mk_action_line agent_id hunker_tok none
    unfold mk_action_line hunker_tok
    simp [String.append_assoc]
  · unfold emit_lines
    simp only [List.getElem?_map, List.getElem?_range hcount, Option.map_some']
    rw [List.getElem?_eq_none hline]

/-- Claim C9 counterexample: the emitted shoot line uses the keyword
SHOOT, not the claimed ATTACK, and a plain Hunker decision emits no
trailing Hunker secondary, contrary to the claimed grammar. -/
theorem c9_counterexample :
    format_compound_action 7 ⟨"SHOOT", -1, -1, 3, -1, -1, 0, 0⟩ = "7;SHOOT 3; HUNKER_DOWN"
    ∧ mk_action_line 7 (attack_tok 3) (some hunker_tok) = "7;ATTACK 3; HUNKER_DOWN"
    ∧ ("7;SHOOT 3; HUNKER_DOWN" : String) ≠ "7;ATTACK 3; HUNKER_DOWN"
    ∧ format_compound_action 7 ⟨"HUNKER_DOWN", -1, -1, -1, -1, -1, 0, 0⟩ = "7;HUNKER_DOWN"
    ∧ mk_action_line 7 hunker_tok (some hunker_tok) = "7;HUNKER_DOWN; HUNKER_DOWN"
    ∧ ("7;HUNKER_DOWN" : String) ≠ "7;HUNKER_DOWN; HUNKER_DOWN" := by
  refine ⟨by decide, by decide, by decide, by decide, by decide, by decide⟩

/-- Claim C9 witness: the amended format at concrete field values and a
concrete surplus output slot. -/
theorem c9_witness :
    (([] : List AgentState).length ≤ 0 ∧ 0 < 1)
    ∧ (format_compound_action 7 ⟨"SHOOT", 1, 2, 3, 4, 5, 0, 0⟩
        = mk_action_line 7 (shoot_tok 3) (some hunker_tok)
      ∧ format_compound_action 7 ⟨"MOVE", 1, 2, 3, 4, 5, 0, 0⟩
        = mk_action_line 7 (move_tok 1 2) (some hunker_tok)
      ∧ format_compound_action 7 ⟨"THROW", 1, 2, 3, 4, 5, 0, 0⟩
        = mk_action_line 7 (throw_tok 1 2) (some hunker_tok)
      ∧ format_compound_action 7 ⟨"MOVE_SHOOT", 1, 2, 3, 4, 5, 0, 0⟩
        = mk_action_line 7 (move_tok 1 2) (some (shoot_tok 3))
      ∧ format_compound_action 7 ⟨"MOVE_THROW", 1, 2, 3, 4, 5, 0, 0⟩
        = mk_action_line 7 (move_tok 1 2) (some (throw_tok 4 5))
      ∧ format_compound_action 7 ⟨"HUNKER_DOWN", 1, 2, 3, 4, 5, 0, 0⟩
        = mk_action_line 7 hunker_tok none
      ∧ (emit_lines 1 [] [] [7])[0]? = some (hunker_line (fallback_agent_id [] [7]))) :=
  ⟨⟨by decide, by decide⟩,
   c9_output_format 7 1 2 3 4 5 0 0 1 [] [] [7] 0 (by decide) (by decide)⟩
